import Mathlib

/-!
Verification of the wind & apparent-temperature intelligence engine
(`windIntelligence` module) of the sunstay-mobile repository.

The engine is shallowly embedded: JavaScript numbers are modelled as exact
rationals (`ℚ`) except where the source calls `Math.exp`, which is modelled
by `Real.exp` over `ℝ`; nullable values are `Option`; `Math.round x` is
`⌊x + 1/2⌋` (JS rounds half toward +∞); object lookups are association-list
lookups; `a ?? b` is `Option.getD`; `a || b` on numbers falls through on
`0`/missing exactly as in JS.
-/

namespace Sunstay

/-- JS `Math.round` on a real argument: round half toward +∞. -/
noncomputable def jsRound (x : ℝ) : ℤ := ⌊x + 1/2⌋

/-- JS `Math.round` on an (exact) rational argument. -/
def jsRoundQ (x : ℚ) : ℤ := ⌊x + 1/2⌋

/-- JS `s.toLowerCase()` (ASCII case mapping, structurally recursive so
that concrete instances reduce in the kernel). -/
def jsToLower (s : String) : String := String.mk (s.data.map Char.toLower)

/-- JS `haystack.includes(needle)`: substring test. -/
def strIncludes (haystack needle : String) : Bool :=
  haystack.toList.tails.any fun t => needle.toList.isPrefixOf t

/-- A venue record as consumed by the engine: `vibe`, `tags`, `venueName`
may each be absent (JS `undefined`). -/
structure Venue where
  id : String
  vibe : Option String
  tags : Option (List String)
  venueName : Option String
deriving DecidableEq

/-- One entry of `WIND_EXPOSURE_PROFILES`. -/
structure WindProfile where
  exposure : ℚ
  shelterFactor : ℚ
  label : String
deriving DecidableEq

/-- The static exposure table `WIND_EXPOSURE_PROFILES` (object keyed by
category name, embedded as an association list in source order). -/
def WIND_EXPOSURE_PROFILES : List (String × WindProfile) :=
  [("rooftop", ⟨0.95, 0.05, "Rooftop — Fully Exposed"⟩),
   ("floating", ⟨0.90, 0.10, "Waterfront — Very Exposed"⟩),
   ("waterfront", ⟨0.80, 0.20, "Waterfront — High Exposure"⟩),
   ("open_park", ⟨0.75, 0.25, "Open Park/Stadium — High Exposure"⟩),
   ("beer_garden", ⟨0.55, 0.45, "Beer Garden — Moderate Exposure"⟩),
   ("courtyard", ⟨0.35, 0.65, "Courtyard — Partially Sheltered"⟩),
   ("streetside", ⟨0.50, 0.50, "Streetside — Moderate Exposure"⟩),
   ("indoor", ⟨0.05, 0.95, "Indoor — Well Sheltered"⟩),
   ("cafe", ⟨0.30, 0.70, "Cafe — Mostly Sheltered"⟩),
   ("hotel", ⟨0.25, 0.75, "Hotel — Sheltered"⟩)]

/-- The table `VENUE_WIND_NOTES`, keyed by venue id. -/
def VENUE_WIND_NOTES : List (String × String) :=
  [("dv-02", "This rooftop gets afternoon bay breezes from the south"),
   ("dv-03", "Streetside seating exposed to St Kilda sea breeze"),
   ("dv-04", "Port Melbourne brewery catches westerly harbour winds"),
   ("dv-06", "Multi-level CBD location — upper floors windier"),
   ("dv-07", "Open food truck park — exposed to northerly gusts"),
   ("dv-09", "Rooftop courtyard funnels afternoon wind between buildings"),
   ("dv-11", "CBD rooftop exposed to cross-building wind tunnels"),
   ("dv-13", "Sheltered laneway terrace — protected from westerly winds"),
   ("dv-15", "South Wharf waterfront gets consistent river breeze"),
   ("dv-17", "Little Bourke St laneway creates natural wind shelter"),
   ("dv-18", "Open stadium precinct — exposed on all sides"),
   ("dv-19", "Docklands waterfront — high wind exposure from bay"),
   ("dv-21", "Esplanade-facing — strong afternoon sea breeze from bay"),
   ("dv-22", "Floating bar on Yarra — constant river surface breeze"),
   ("dv-23", "Fitzroy garden courtyard — protected by surrounding walls")]

/-- Source `detectWindExposure(venue)`: the priority-ordered keyword cascade.
`venue.name` is computed in the source but referenced by no rule. -/
def detectWindExposure (venue : Venue) : String :=
  let vibe := jsToLower (venue.vibe.getD "")
  let tags := (venue.tags.getD []).map jsToLower
  if tags.contains "rooftop" || strIncludes vibe "rooftop" then "rooftop"
  else if strIncludes vibe "floating" then "floating"
  else if tags.contains "river" || strIncludes vibe "waterfront" || strIncludes vibe "wharf" then "waterfront"
  else if strIncludes vibe "stadium" || strIncludes vibe "pop-up" || strIncludes vibe "marquee" then "open_park"
  else if strIncludes vibe "food truck" || strIncludes vibe "park" then "open_park"
  else if tags.contains "beer garden" || strIncludes vibe "beer garden" || strIncludes vibe "garden" then "beer_garden"
  else if strIncludes vibe "courtyard" || strIncludes vibe "maze" || strIncludes vibe "hidden" then "courtyard"
  else if strIncludes vibe "streetside" || strIncludes vibe "street" then "streetside"
  else if strIncludes vibe "cafe" || strIncludes vibe "bookshop" || strIncludes vibe "co-work" then "cafe"
  else if strIncludes vibe "hotel" || strIncludes vibe "boutique hotel" then "hotel"
  else if strIncludes vibe "lounge" || strIncludes vibe "cocktail" || tags.contains "cozy" then "courtyard"
  else if strIncludes vibe "pub" || strIncludes vibe "tavern" then "beer_garden"
  else if strIncludes vibe "warehouse" then "beer_garden"
  else "beer_garden"

/-- Object indexing `WIND_EXPOSURE_PROFILES[type]`. -/
def lookupProfile (key : String) : Option WindProfile :=
  (WIND_EXPOSURE_PROFILES.find? fun p => p.1 == key).map fun p => p.2

/-- Result of `getWindProfile`: the profile spread together with the
category and the optional venue note. -/
structure FullProfile where
  type : String
  exposure : ℚ
  shelterFactor : ℚ
  label : String
  venueNote : Option String
deriving DecidableEq

/-- Source `getWindProfile(venue)`. -/
def getWindProfile (venue : Venue) : FullProfile :=
  let t := detectWindExposure venue
  let profile := (lookupProfile t).getD ⟨0.55, 0.45, "Beer Garden — Moderate Exposure"⟩
  let note := (VENUE_WIND_NOTES.find? fun p => p.1 == venue.id).map fun p => p.2
  ⟨t, profile.exposure, profile.shelterFactor, profile.label, note⟩

/-- Source `calculateApparentTemp(tempC, windSpeedMs, humidity, shelterFactor)`:
the BoM apparent-temperature formula, `null` when temperature or wind is
missing, humidity defaulting to 50, result rounded to one decimal. -/
noncomputable def calculateApparentTemp
    (tempC windSpeedMs humidity : Option ℚ) (shelterFactor : ℚ) : Option ℚ :=
  match tempC, windSpeedMs with
  | some t, some w =>
    let rh : ℚ := humidity.getD 50
    let e : ℝ := ((rh : ℝ) / 100) * 6.105 * Real.exp ((17.27 * (t : ℝ)) / (237.7 + (t : ℝ)))
    let effectiveWind : ℚ := w * (1 - shelterFactor)
    let at_ : ℝ := (t : ℝ) + 0.33 * e - 0.70 * (effectiveWind : ℝ) - 4.00
    some ((jsRound (at_ * 10) : ℚ) / 10)
  | _, _ => none

/-- Return record of `getComfortZone`. -/
structure ComfortZone where
  level : String
  label : String
  advice : String
  color : String
  bgColor : String
  borderColor : String
  icon : String
deriving DecidableEq

/-- Source `getComfortZone(apparentTemp)`. -/
def getComfortZone (apparentTemp : Option ℚ) : ComfortZone :=
  match apparentTemp with
  | none =>
    ⟨"unknown", "Unknown", "Weather data unavailable",
     "text-gray-500", "bg-gray-50", "border-gray-200", "❓"⟩
  | some t =>
    if t < 10 then
      ⟨"cold", "Feels Cold", "Bring warm jackets for outdoor seating",
       "text-blue-700", "bg-blue-50", "border-blue-200", "🥶"⟩
    else if t < 16 then
      ⟨"cool", "Feels Cool", "A light jacket recommended for outdoor areas",
       "text-blue-500", "bg-blue-50/60", "border-blue-200/60", "🧥"⟩
    else if t < 22 then
      ⟨"mild", "Comfortable — Mild", "Lovely outdoor conditions",
       "text-green-600", "bg-green-50", "border-green-200", "😊"⟩
    else if t < 28 then
      ⟨"warm", "Comfortable — Warm", "Perfect outdoor conditions",
       "text-emerald-600", "bg-emerald-50", "border-emerald-200", "☀️"⟩
    else if t < 34 then
      ⟨"hot", "Feels Hot", "Seek shade or breeze — stay hydrated",
       "text-orange-600", "bg-orange-50", "border-orange-200", "🥵"⟩
    else
      ⟨"extreme", "Extreme Heat", "Indoor seating strongly recommended",
       "text-red-700", "bg-red-50", "border-red-200", "🔥"⟩

/-- Return record of `getWindWarning`. -/
structure WindWarning where
  level : String
  label : String
  advice : String
  color : String
  bgColor : String
  borderColor : String
  icon : String
  effectiveWind : ℤ
  exposureLabel : String
deriving DecidableEq

/-- Source `getWindWarning(windSpeedMs, venue)`; `windSpeedMs || 0` coalesces a
missing wind speed to `0` (on a present rational the `|| 0` is the
identity, `0 || 0` being `0`). -/
def getWindWarning (windSpeedMs : Option ℚ) (venue : Venue) : WindWarning :=
  let profile := getWindProfile venue
  let effectiveWind := (windSpeedMs.getD 0) * profile.exposure
  let windKmh := jsRoundQ (effectiveWind * 3.6)
  if effectiveWind < 5 then
    ⟨"green", "Calm Conditions", "Perfect for outdoor events",
     "text-emerald-600", "bg-emerald-50", "border-emerald-200", "🍃",
     windKmh, profile.label⟩
  else if effectiveWind < 9 then
    ⟨"yellow", "Moderate Breeze", "Secure lightweight decorations",
     "text-amber-600", "bg-amber-50", "border-amber-200", "🌿",
     windKmh, profile.label⟩
  else if effectiveWind < 14 then
    ⟨"orange", "Windy", "Recommend secure tent anchoring and marquee weights",
     "text-orange-600", "bg-orange-50", "border-orange-200", "💨",
     windKmh, profile.label⟩
  else
    ⟨"red", "High Wind Warning", "Outdoor events not recommended — indoor backup advised",
     "text-red-700", "bg-red-50", "border-red-200", "🌬️",
     windKmh, profile.label⟩

/-- One element of the array produced by `generateHourlyForecast`. -/
structure HourlyPoint where
  hour : Nat
  label : String
  temp : ℤ
  wind : ℤ
  windMs : ℚ
  feelsLike : ℚ
  comfort : ComfortZone
  windWarning : WindWarning
  isCurrent : Bool
deriving DecidableEq

/-- The diurnal wind-multiplier table; the JS lookup `windMultipliers[h] || 1`
yields `1` for an hour outside 0–23 (and no table value is falsy). -/
def windMultipliers (h : Nat) : ℚ :=
  match h with
  | 0 => 0.3 | 1 => 0.25 | 2 => 0.2 | 3 => 0.2 | 4 => 0.25 | 5 => 0.3
  | 6 => 0.35 | 7 => 0.4 | 8 => 0.5 | 9 => 0.6 | 10 => 0.7 | 11 => 0.85
  | 12 => 0.95 | 13 => 1.05 | 14 => 1.15 | 15 => 1.25 | 16 => 1.3 | 17 => 1.2
  | 18 => 1.0 | 19 => 0.8 | 20 => 0.65 | 21 => 0.5 | 22 => 0.4 | 23 => 0.35
  | _ => 1

/-- The diurnal temperature-offset table; the JS lookup `tempOffsets[h] || 0`
yields `0` for an hour outside 0–23 (the stored `0` at hour 9 is falsy but
`0 || 0` is again `0`). -/
def tempOffsets (h : Nat) : ℚ :=
  match h with
  | 0 => -3 | 1 => -3.5 | 2 => -4 | 3 => -4.5 | 4 => -4 | 5 => -3.5
  | 6 => -3 | 7 => -2 | 8 => -1 | 9 => 0 | 10 => 1 | 11 => 2
  | 12 => 3 | 13 => 3.5 | 14 => 4 | 15 => 3.5 | 16 => 3 | 17 => 2
  | 18 => 1 | 19 => 0 | 20 => -1 | 21 => -1.5 | 22 => -2 | 23 => -2.5
  | _ => 0

/-- Source `generateHourlyForecast(currentTemp, currentWind, humidity, venue)`;
the wall-clock hour `new Date().getHours()` is passed explicitly. -/
noncomputable def generateHourlyForecast
    (currentTemp currentWind : ℚ) (humidity : Option ℚ) (venue : Venue)
    (currentHour : Nat) : List HourlyPoint :=
  let profile := getWindProfile venue
  let currentMultiplier := windMultipliers currentHour
  let baseWind := currentWind / currentMultiplier
  let currentTempOffset := tempOffsets currentHour
  let baseTemp := currentTemp - currentTempOffset
  (List.range 24).map fun i =>
    let h := (currentHour + i) % 24
    let hourWind := baseWind * windMultipliers h
    let hourTemp := baseTemp + tempOffsets h
    let feelsLike := calculateApparentTemp (some hourTemp) (some hourWind) humidity profile.shelterFactor
    let comfort := getComfortZone feelsLike
    let windWarning := getWindWarning (some hourWind) venue
    let isPM := decide (12 ≤ h)
    let displayH := if h = 0 then 12 else if 12 < h then h - 12 else h
    let label := if i = 0 then "Now" else toString displayH ++ (if isPM then "pm" else "am")
    { hour := h
      label := label
      temp := jsRoundQ hourTemp
      wind := jsRoundQ (hourWind * 3.6)
      windMs := (jsRoundQ (hourWind * 10) : ℚ) / 10
      feelsLike := (jsRoundQ (feelsLike.getD 0) : ℚ)
      comfort := comfort
      windWarning := windWarning
      isCurrent := i = 0 }

/-- Return record of `getWindTrend`. -/
structure WindTrendR where
  direction : String
  label : String
  icon : String
deriving DecidableEq

/-- The `steady` trend record (returned from three places in the source). -/
def steadyTrend : WindTrendR := ⟨"steady", "Wind conditions steady", "↔️"⟩

/-- Source `getWindTrend(hourlyForecast)`.  `hourlyForecast[4]?.windMs || inTwoHours`
falls back to index 2 both when index 4 is absent and when its `windMs` is
`0` (falsy); the ratio uses `now > 0`, not `now ≠ 0`. -/
def getWindTrend (hourlyForecast : Option (List HourlyPoint)) : WindTrendR :=
  match hourlyForecast with
  | none => steadyTrend
  | some f =>
    if f.length < 4 then steadyTrend
    else
      match f with
      | p0 :: _ :: p2 :: _ :: rest =>
        let now := p0.windMs
        let inTwoHours := p2.windMs
        let inFourHours :=
          match rest with
          | [] => inTwoHours
          | p4 :: _ => if p4.windMs = 0 then inTwoHours else p4.windMs
        let delta := inFourHours - now
        let ratio := if now > 0 then delta / now else delta
        if ratio > 0.3 ∨ delta > 3 then
          ⟨"building", "Wind building through afternoon", "📈"⟩
        else if ratio < -0.3 ∨ delta < -3 then
          ⟨"calming", "Winds calming down", "📉"⟩
        else steadyTrend
      | _ => steadyTrend

/-- Per-hour score of `getOptimalBookingTime` (comfort points, wind
points, daytime bonuses). -/
def hourScore (h : HourlyPoint) : ℤ :=
  let comfortPts : ℤ :=
    if h.comfort.level = "warm" then 5
    else if h.comfort.level = "mild" then 4
    else if h.comfort.level = "cool" then 2
    else if h.comfort.level = "hot" then 1
    else 0
  let windPts : ℤ :=
    if h.windWarning.level = "green" then 3
    else if h.windWarning.level = "yellow" then 1
    else if h.windWarning.level = "orange" then -1
    else -3
  let dayPts : ℤ :=
    (if 9 ≤ h.hour ∧ h.hour ≤ 21 then 1 else 0) +
    (if 10 ≤ h.hour ∧ h.hour ≤ 16 then 1 else 0)
  comfortPts + windPts + dayPts

/-- The 3-hour window sum `scored[i].score + scored[i+1].score +
scored[i+2].score` (all three accesses are in bounds whenever the scan
uses them). -/
def windowSum (s : List ℤ) (i : Nat) : ℤ :=
  s.getD i 0 + s.getD (i + 1) 0 + s.getD (i + 2) 0

/-- One iteration of the scan: `if (windowScore > bestScore) { bestScore =
windowScore; bestStart = i; }` on the accumulator `(bestStart, bestScore)`. -/
def bestStep (g : Nat → ℤ) (acc : Nat × WithBot ℤ) (i : Nat) : Nat × WithBot ℤ :=
  if acc.2 < (g i : WithBot ℤ) then (i, (g i : WithBot ℤ)) else acc

/-- The scan `for (i = 0; i < scored.length - 2; i++)` keeping the first
window of strictly greater sum; `bestScore` starts at `-Infinity` (`⊥`),
`bestStart` at `0`. -/
def bestScan (s : List ℤ) : Nat × WithBot ℤ :=
  (List.range (s.length - 2)).foldl (bestStep (windowSum s)) (0, (⊥ : WithBot ℤ))

/-- The `bestStart` index selected by the scan for a forecast list. -/
def bestStartOf (f : List HourlyPoint) : Nat := (bestScan (f.map hourScore)).1

/-- Return record of `getOptimalBookingTime`. -/
structure BookingWindow where
  startHour : Nat
  endHour : Nat
  startLabel : String
  endLabel : String
  avgFeelsLike : ℤ
  avgWindLevel : String
  reason : String
deriving DecidableEq

/-- The local `fmtHour` helper. -/
def fmtHour (h : Nat) : String :=
  if h = 0 ∨ h = 24 then "12am"
  else if h = 12 then "12pm"
  else if 12 < h then toString (h - 12) ++ "pm"
  else toString h ++ "am"

/-- Construction of the returned window from `scored[bestStart]`,
`scored[bestStart+1]`, `scored[bestStart+2]`. -/
def buildWindow (startHour middle endHour : HourlyPoint) : BookingWindow :=
  let avgFeelsLike := jsRoundQ ((startHour.feelsLike + middle.feelsLike + endHour.feelsLike) / 3)
  { startHour := startHour.hour
    endHour := (endHour.hour + 1) % 24
    startLabel := fmtHour startHour.hour
    endLabel := fmtHour ((endHour.hour + 1) % 24)
    avgFeelsLike := avgFeelsLike
    avgWindLevel := startHour.windWarning.level
    reason := "Feels like " ++ toString avgFeelsLike ++ "°C with " ++
      jsToLower startHour.windWarning.label ++ " conditions" }

/-- Source `getOptimalBookingTime(hourlyForecast)`.  The outer `Option` of the
result distinguishes a JS `TypeError` (reading a field of `undefined`,
modelled `none`) from a normal return (`some`); the inner `Option` is the
source's `null`/window result.  The three element accesses mirror
`scored[bestStart]`, `scored[bestStart+1]`, `scored[bestStart+2]`, which
the source dereferences unconditionally. -/
def getOptimalBookingTime (hourlyForecast : Option (List HourlyPoint)) :
    Option (Option BookingWindow) :=
  match hourlyForecast with
  | none => some none
  | some forecast =>
    if forecast.length = 0 then some none
    else
      let bestStart := bestStartOf forecast
      match forecast.get? bestStart, forecast.get? (bestStart + 1), forecast.get? (bestStart + 2) with
      | some s0, some s1, some s2 => some (some (buildWindow s0 s1 s2))
      | _, _, _ => none

/-! ### Specification-side definitions

These definitions follow the wording of the specification and of the
claims; the theorems below compare them with the embedded source. -/

/-- The apparent-temperature formula exactly as the specification words it:
`AT = T + 0.33*e − 0.70*W*(1−shelterFactor) − 4.00` with
`e = (H/100)*6.105*exp(17.27*T/(237.7+T))`, `H` defaulting to 50, rounded
to one decimal place. -/
noncomputable def specApparentTemp (T W : ℚ) (H : Option ℚ) (sf : ℚ) : ℚ :=
  let e : ℝ := (((H.getD 50 : ℚ) : ℝ) / 100) * 6.105 *
    Real.exp ((17.27 * (T : ℝ)) / (237.7 + (T : ℝ)))
  ((jsRound (((T : ℝ) + 0.33 * e - 0.70 * (W : ℝ) * (1 - (sf : ℝ)) - 4.00) * 10) : ℚ) / 10)

/-- First-match evaluation of an ordered rule table (defaulting to
`beer_garden`), following the spec's description of the resolver as a
priority-ordered list of keyword rules. -/
def firstMatchAux : List ((Venue → Bool) × String) → Venue → String
  | [], _ => "beer_garden"
  | r :: rs, v => if r.1 v then r.2 else firstMatchAux rs v

/-- The rule table in the priority order stated by the claim:
rooftop → floating → waterfront → open_park → beer_garden → courtyard →
streetside → cafe → hotel → lounge/cocktail/cozy → pub/tavern → warehouse. -/
def exposureRules : List ((Venue → Bool) × String) :=
  [(fun v => ((v.tags.getD []).map jsToLower).contains "rooftop" || strIncludes (jsToLower (v.vibe.getD "")) "rooftop", "rooftop"),
   (fun v => strIncludes (jsToLower (v.vibe.getD "")) "floating", "floating"),
   (fun v => ((v.tags.getD []).map jsToLower).contains "river" || strIncludes (jsToLower (v.vibe.getD "")) "waterfront" || strIncludes (jsToLower (v.vibe.getD "")) "wharf", "waterfront"),
   (fun v => strIncludes (jsToLower (v.vibe.getD "")) "stadium" || strIncludes (jsToLower (v.vibe.getD "")) "pop-up" || strIncludes (jsToLower (v.vibe.getD "")) "marquee", "open_park"),
   (fun v => strIncludes (jsToLower (v.vibe.getD "")) "food truck" || strIncludes (jsToLower (v.vibe.getD "")) "park", "open_park"),
   (fun v => ((v.tags.getD []).map jsToLower).contains "beer garden" || strIncludes (jsToLower (v.vibe.getD "")) "beer garden" || strIncludes (jsToLower (v.vibe.getD "")) "garden", "beer_garden"),
   (fun v => strIncludes (jsToLower (v.vibe.getD "")) "courtyard" || strIncludes (jsToLower (v.vibe.getD "")) "maze" || strIncludes (jsToLower (v.vibe.getD "")) "hidden", "courtyard"),
   (fun v => strIncludes (jsToLower (v.vibe.getD "")) "streetside" || strIncludes (jsToLower (v.vibe.getD "")) "street", "streetside"),
   (fun v => strIncludes (jsToLower (v.vibe.getD "")) "cafe" || strIncludes (jsToLower (v.vibe.getD "")) "bookshop" || strIncludes (jsToLower (v.vibe.getD "")) "co-work", "cafe"),
   (fun v => strIncludes (jsToLower (v.vibe.getD "")) "hotel" || strIncludes (jsToLower (v.vibe.getD "")) "boutique hotel", "hotel"),
   (fun v => strIncludes (jsToLower (v.vibe.getD "")) "lounge" || strIncludes (jsToLower (v.vibe.getD "")) "cocktail" || ((v.tags.getD []).map jsToLower).contains "cozy", "courtyard"),
   (fun v => strIncludes (jsToLower (v.vibe.getD "")) "pub" || strIncludes (jsToLower (v.vibe.getD "")) "tavern", "beer_garden"),
   (fun v => strIncludes (jsToLower (v.vibe.getD "")) "warehouse", "beer_garden")]

/-- The "rooftop" keyword test (first rule of the cascade). -/
def matchesRooftopKw (v : Venue) : Bool :=
  ((v.tags.getD []).map jsToLower).contains "rooftop" ||
    strIncludes (jsToLower (v.vibe.getD "")) "rooftop"

/-- The "beer garden" keyword test (sixth rule of the cascade). -/
def matchesBeerGardenKw (v : Venue) : Bool :=
  ((v.tags.getD []).map jsToLower).contains "beer garden" ||
    strIncludes (jsToLower (v.vibe.getD "")) "beer garden" ||
    strIncludes (jsToLower (v.vibe.getD "")) "garden"

/-- The direction of `getWindTrend` as the claim must be amended to describe it:
the four-hour sample falls back to the two-hour sample when index 4 is
absent or its `windMs` is `0` (JS falsiness of `||`), and the ratio is used
only when `windMs[0] > 0`. -/
def windTrendAmendedDir (ws : List ℚ) : String :=
  if ws.length < 4 then "steady"
  else
    match ws with
    | w0 :: _ :: w2 :: _ :: rest =>
      let inFour := match rest with
        | [] => w2
        | w4 :: _ => if w4 = 0 then w2 else w4
      let delta := inFour - w0
      let ratio := if w0 > 0 then delta / w0 else delta
      if ratio > 0.3 ∨ delta > 3 then "building"
      else if ratio < -0.3 ∨ delta < -3 then "calming"
      else "steady"
    | _ => "steady"

/-- The hour scoring exactly as the claim words it: +5 warm / +4 mild /
+2 cool / +1 hot / +0 otherwise, +3 calm(green) / +1 breezy(yellow) /
−1 windy(orange) / −3 severe(red), +1 for hour in [9,21], +1 more for
hour in [10,16]. -/
def claimHourScore (p : HourlyPoint) : ℤ :=
  (if p.comfort.level = "warm" then 5 else if p.comfort.level = "mild" then 4
   else if p.comfort.level = "cool" then 2 else if p.comfort.level = "hot" then 1 else 0) +
  (if p.windWarning.level = "green" then 3 else if p.windWarning.level = "yellow" then 1
   else if p.windWarning.level = "orange" then -1 else -3) +
  ((if 9 ≤ p.hour ∧ p.hour ≤ 21 then 1 else 0) + (if 10 ≤ p.hour ∧ p.hour ≤ 16 then 1 else 0))

/-! ### Concrete test fixtures -/

/-- A venue tagged `["Rooftop"]`, as in the spec's end-to-end scenario. -/
def vRooftopTagged : Venue := ⟨"", none, some ["Rooftop"], none⟩

/-- A venue whose vibe matches both the rooftop and beer-garden keywords. -/
def vRooftopBeerGarden : Venue := ⟨"", some "rooftop beer garden", none, none⟩

/-- A venue matching the streetside rule (exposure 0.50). -/
def vStreetside : Venue := ⟨"", some "streetside", none, none⟩

/-- A venue matching no keyword rule at all. -/
def vNoKeywords : Venue := ⟨"", none, none, none⟩

/-- A comfort-zone record with no recognised level, for fixture points. -/
def blankComfort : ComfortZone := ⟨"", "", "", "", "", "", ""⟩

/-- A wind-warning record with no recognised level, for fixture points. -/
def blankWarning : WindWarning := ⟨"", "", "", "", "", "", "", 0, ""⟩

/-- An hourly point carrying only a `windMs` value, for trend fixtures. -/
def trendPoint (w : ℚ) : HourlyPoint := ⟨0, "", 0, 0, w, 0, blankComfort, blankWarning, false⟩

/-! ### Helper lemmas -/

/-- On inputs with temperature and wind present, the source calculator
agrees with the spec's formula. -/
lemma apparentTemp_eq_spec (T W : ℚ) (H : Option ℚ) (sf : ℚ) :
    calculateApparentTemp (some T) (some W) H sf = some (specApparentTemp T W H sf) := by
  simp only [calculateApparentTemp, specApparentTemp]
  congr 3
  push_cast
  ring_nf

/-- A rule table none of whose predicates fires resolves to the default. -/
lemma firstMatchAux_default (rs : List ((Venue → Bool) × String)) (v : Venue)
    (h : ∀ r ∈ rs, r.1 v = false) : firstMatchAux rs v = "beer_garden" := by
  induction rs with
  | nil => rfl
  | cons r rs ih =>
    simp only [firstMatchAux, h r (List.mem_cons_self r rs), Bool.false_eq_true, if_false]
    exact ih fun q hq => h q (List.mem_cons_of_mem r hq)

/-- Every row of the exposure table satisfies `exposure + shelterFactor = 1`. -/
lemma profiles_sum_one : ∀ p ∈ WIND_EXPOSURE_PROFILES, p.2.exposure + p.2.shelterFactor = 1 := by
  intro p hp
  fin_cases hp <;> norm_num

/-- The resolved profile of any venue satisfies `exposure + shelterFactor = 1`. -/
lemma getWindProfile_sum_one (v : Venue) :
    (getWindProfile v).exposure + (getWindProfile v).shelterFactor = 1 := by
  simp only [getWindProfile]
  cases hfind : lookupProfile (detectWindExposure v) with
  | none =>
    simp only [Option.getD_none]
    norm_num
  | some pr =>
    simp only [Option.getD_some]
    simp only [lookupProfile, Option.map_eq_some'] at hfind
    obtain ⟨a, ha, rfl⟩ := hfind
    exact profiles_sum_one a (List.mem_of_find?_eq_some ha)

/-- No diurnal wind multiplier is zero (`|| 1` supplies 1 off-table). -/
lemma windMultipliers_ne_zero (h : Nat) : windMultipliers h ≠ 0 := by
  unfold windMultipliers
  split <;> norm_num

/-- The trend function computes the direction described by the amended claim. -/
lemma getWindTrend_eq_amended (f : List HourlyPoint) :
    (getWindTrend (some f)).direction = windTrendAmendedDir (f.map fun p => p.windMs) := by
  rcases f with _ | ⟨p0, f⟩
  · rfl
  rcases f with _ | ⟨p1, f⟩
  · rfl
  rcases f with _ | ⟨p2, f⟩
  · rfl
  rcases f with _ | ⟨p3, f⟩
  · rfl
  rcases f with _ | ⟨p4, f⟩ <;>
  · simp only [getWindTrend, windTrendAmendedDir, List.map_cons, List.map_nil, List.length_cons,
      List.length_map, List.length_nil, steadyTrend, apply_ite WindTrendR.direction]

/-- The scan fold keeps the first index realising the maximum of `g` over
`[0, n)`: the kept value is `g` at the kept index, every index is beaten
weakly, and every earlier index strictly. -/
lemma bestFold_spec (g : Nat → ℤ) (n : Nat) (hn : 0 < n) :
    ((List.range n).foldl (bestStep g) (0, ⊥)).1 < n ∧
    ((List.range n).foldl (bestStep g) (0, ⊥)).2 =
      (g ((List.range n).foldl (bestStep g) (0, ⊥)).1 : WithBot ℤ) ∧
    (∀ i < n, g i ≤ g ((List.range n).foldl (bestStep g) (0, ⊥)).1) ∧
    (∀ j < ((List.range n).foldl (bestStep g) (0, ⊥)).1,
      g j < g ((List.range n).foldl (bestStep g) (0, ⊥)).1) := by
  induction n with
  | zero => exact absurd hn (lt_irrefl 0)
  | succ m ih =>
    rcases Nat.eq_zero_or_pos m with hm | hm
    · subst hm
      have hfold : (List.range 1).foldl (bestStep g) ((0 : Nat), (⊥ : WithBot ℤ)) =
          (0, (g 0 : WithBot ℤ)) := by
        simp only [show List.range 1 = [0] from rfl, List.foldl_cons, List.foldl_nil, bestStep,
          if_pos (WithBot.bot_lt_coe _)]
      rw [hfold]
      refine ⟨Nat.zero_lt_one, rfl, ?_, ?_⟩
      · intro i hi
        interval_cases i
        exact le_refl _
      · intro j hj
        exact absurd hj (Nat.not_lt_zero j)
    · obtain ⟨h1, h2, h3, h4⟩ := ih hm
      rw [List.range_succ, List.foldl_append, List.foldl_cons, List.foldl_nil]
      set r := (List.range m).foldl (bestStep g) (0, ⊥) with hr
      by_cases hc : r.2 < (g m : WithBot ℤ)
      · have hblt : g r.1 < g m := by
          rw [h2] at hc
          exact_mod_cast hc
        rw [bestStep, if_pos hc]
        refine ⟨Nat.lt_succ_self m, rfl, ?_, ?_⟩
        · intro i hi
          rcases Nat.lt_succ_iff_lt_or_eq.1 hi with hi' | rfl
          · exact le_of_lt (lt_of_le_of_lt (h3 i hi') hblt)
          · exact le_refl _
        · intro j hj
          exact lt_of_le_of_lt (h3 j hj) hblt
      · have hgm : g m ≤ g r.1 := by
          have hge : (g m : WithBot ℤ) ≤ r.2 := not_lt.1 hc
          rw [h2] at hge
          exact_mod_cast hge
        rw [bestStep, if_neg hc]
        refine ⟨Nat.lt_succ_of_lt h1, h2, ?_, h4⟩
        intro i hi
        rcases Nat.lt_succ_iff_lt_or_eq.1 hi with hi' | rfl
        · exact h3 i hi'
        · exact hgm

/-- On at least three scores, `bestScan` selects an in-range start whose
window sum is maximal, strictly beating every earlier start. -/
lemma bestScan_spec (s : List ℤ) (h : 3 ≤ s.length) :
    (bestScan s).1 + 2 < s.length ∧
    (∀ i, i + 2 < s.length → windowSum s i ≤ windowSum s (bestScan s).1) ∧
    (∀ j < (bestScan s).1, windowSum s j < windowSum s (bestScan s).1) := by
  have hn : 0 < s.length - 2 := by omega
  obtain ⟨h1, _, h3, h4⟩ := bestFold_spec (windowSum s) (s.length - 2) hn
  simp only [bestScan]
  exact ⟨by omega, fun i hi => h3 i (by omega), h4⟩

/-- On a series of at least three points the booking optimiser returns the
window built from the three points at the selected start. -/
lemma getOptimal_of_three_le (f : List HourlyPoint) (h : 3 ≤ f.length) :
    ∃ p0 p1 p2, f.get? (bestStartOf f) = some p0 ∧ f.get? (bestStartOf f + 1) = some p1 ∧
      f.get? (bestStartOf f + 2) = some p2 ∧
      getOptimalBookingTime (some f) = some (some (buildWindow p0 p1 p2)) := by
  have hlen : (f.map hourScore).length = f.length := List.length_map f hourScore
  have hb := (bestScan_spec (f.map hourScore) (by rw [hlen]; exact h)).1
  have hb2 : bestStartOf f + 2 < f.length := by
    rw [← hlen]
    exact hb
  have h0 : f.get? (bestStartOf f) = some (f.get ⟨bestStartOf f, by omega⟩) :=
    List.get?_eq_get (by omega)
  have h1 : f.get? (bestStartOf f + 1) = some (f.get ⟨bestStartOf f + 1, by omega⟩) :=
    List.get?_eq_get (by omega)
  have h2 : f.get? (bestStartOf f + 2) = some (f.get ⟨bestStartOf f + 2, by omega⟩) :=
    List.get?_eq_get (by omega)
  refine ⟨_, _, _, h0, h1, h2, ?_⟩
  simp only [getOptimalBookingTime]
  rw [if_neg (by omega)]
  rw [h0, h1, h2]

/-- Numeric lower bound on the scenario's vapour-pressure exponential:
`exp(17.27·24/261.7) = exp(20724/13085) ≥ 4.87` (truncated Taylor series). -/
lemma exp_arg_lb : (4.87 : ℝ) ≤ Real.exp (20724/13085) := by
  have h := Real.sum_le_exp_of_nonneg (x := ((20724:ℝ)/13085)) (by norm_num) 8
  refine le_trans ?_ h
  simp only [Finset.sum_range_succ, Finset.sum_range_zero, Nat.factorial]
  norm_num

/-- Numeric upper bound on the scenario's vapour-pressure exponential:
`exp(20724/13085) ≤ 4.88`, via `exp x = exp (x/2)²` and the tail bound. -/
lemma exp_arg_ub : Real.exp (20724/13085) ≤ 4.88 := by
  have hy := Real.exp_bound' (x := ((10362:ℝ)/13085)) (by norm_num) (by norm_num)
    (n := 6) (by norm_num)
  have hx : Real.exp ((20724:ℝ)/13085) =
      Real.exp ((10362:ℝ)/13085) * Real.exp ((10362:ℝ)/13085) := by
    rw [← Real.exp_add]
    norm_num
  rw [hx]
  have hpos : (0:ℝ) ≤ Real.exp ((10362:ℝ)/13085) := (Real.exp_pos _).le
  have hB : (0:ℝ) ≤ (∑ m ∈ Finset.range 6, ((10362:ℝ)/13085) ^ m / m.factorial) +
      ((10362:ℝ)/13085) ^ 6 * (6 + 1) / (Nat.factorial 6 * 6) := le_trans hpos hy
  refine le_trans (mul_le_mul hy hy hpos hB) ?_
  simp only [Finset.sum_range_succ, Finset.sum_range_zero, Nat.factorial]
  norm_num

/-- The end-to-end scenario's apparent temperature: 24 °C, 10 m/s,
50 % humidity, shelter 0.05 gives 18.3 °C after rounding. -/
lemma specAT_scenario : specApparentTemp 24 10 (some 50) 0.05 = 18.3 := by
  unfold specApparentTemp
  simp only [Option.getD_some]
  have harg : ((17.27 * ((24:ℚ):ℝ)) / (237.7 + ((24:ℚ):ℝ))) = ((20724:ℝ)/13085) := by
    push_cast
    norm_num
  rw [harg]
  have h1 : jsRound ((((24:ℚ):ℝ) + 0.33 * ((((50:ℚ):ℝ))/100 * 6.105 * Real.exp ((20724:ℝ)/13085)) -
      0.70 * ((10:ℚ):ℝ) * (1 - ((0.05:ℚ):ℝ)) - 4.00) * 10) = 183 := by
    have hlb := exp_arg_lb
    have hub := exp_arg_ub
    rw [jsRound, Int.floor_eq_iff]
    constructor
    · push_cast
      linarith
    · push_cast
      linarith
  rw [h1]
  norm_num

/-- The scenario's apparent temperature through the source calculator. -/
lemma calcAT_scenario :
    calculateApparentTemp (some 24) (some 10) (some 50) 0.05 = some 18.3 := by
  rw [apparentTemp_eq_spec, specAT_scenario]

/-! ### Claim theorems -/

/-- C1: with temperature and wind present, `calculateApparentTemp` returns
`T + 0.33·e − 0.70·W·(1−shelterFactor) − 4.00` rounded to one decimal,
where `e = (H/100)·6.105·exp(17.27·T/(237.7+T))` and `H` defaults to 50
when humidity is absent; it returns `null` exactly when temperature or
wind speed is missing. -/
theorem claim_C1 :
    (∀ (T W : ℚ) (H : Option ℚ) (sf : ℚ),
      calculateApparentTemp (some T) (some W) H sf = some (specApparentTemp T W H sf)) ∧
    (∀ (W H : Option ℚ) (sf : ℚ), calculateApparentTemp none W H sf = none) ∧
    (∀ (T H : Option ℚ) (sf : ℚ), calculateApparentTemp T none H sf = none) := by
  refine ⟨apparentTemp_eq_spec, fun W H sf => rfl, fun T H sf => ?_⟩
  cases T <;> rfl

/-- C2: `getComfortZone` classifies by the tier boundaries
{10, 16, 22, 28, 34} with strict upper bounds, maps `null` to the
`unknown` tier, and each boundary value lands in the upper tier
(9.99 cold / 10 cool, …, 33.99 hot / 34 extreme). -/
theorem claim_C2 :
    (∀ t : ℚ, (getComfortZone (some t)).level =
      if t < 10 then "cold" else if t < 16 then "cool" else if t < 22 then "mild"
      else if t < 28 then "warm" else if t < 34 then "hot" else "extreme") ∧
    (getComfortZone none).level = "unknown" ∧
    (getComfortZone (some 9.99)).level = "cold" ∧
    (getComfortZone (some 10.0)).level = "cool" ∧
    (getComfortZone (some 15.99)).level = "cool" ∧
    (getComfortZone (some 16.0)).level = "mild" ∧
    (getComfortZone (some 21.99)).level = "mild" ∧
    (getComfortZone (some 22.0)).level = "warm" ∧
    (getComfortZone (some 27.99)).level = "warm" ∧
    (getComfortZone (some 28.0)).level = "hot" ∧
    (getComfortZone (some 33.99)).level = "hot" ∧
    (getComfortZone (some 34.0)).level = "extreme" := by
  refine ⟨fun t => ?_, rfl, ?_, ?_, ?_, ?_, ?_, ?_, ?_, ?_, ?_, ?_⟩
  · simp only [getComfortZone]
    split_ifs <;> rfl
  all_goals
    simp only [getComfortZone]
  all_goals
    norm_num

/-- C3: `getWindWarning` classifies `effectiveWind = W · exposure` by the
boundaries {5, 9, 14} with strict upper bounds (green/yellow/orange/red in
the source, i.e. calm/breezy/windy/severe), reports
`round(effectiveWind·3.6)` km/h, and effective winds of exactly 5, 9 and
14 m/s land in the upper tier (streetside exposure 0.5 with raw winds
10, 18, 28 m/s). -/
theorem claim_C3 :
    (∀ (W : ℚ) (v : Venue),
      ((getWindWarning (some W) v).level =
        if W * (getWindProfile v).exposure < 5 then "green"
        else if W * (getWindProfile v).exposure < 9 then "yellow"
        else if W * (getWindProfile v).exposure < 14 then "orange" else "red") ∧
      (getWindWarning (some W) v).effectiveWind =
        jsRoundQ (W * (getWindProfile v).exposure * 3.6)) ∧
    (getWindWarning (some 10) vStreetside).level = "yellow" ∧
    (getWindWarning (some 18) vStreetside).level = "orange" ∧
    (getWindWarning (some 28) vStreetside).level = "red" := by
  refine ⟨fun W v => ?_, ?_, ?_, ?_⟩
  · simp only [getWindWarning, Option.getD_some]
    split_ifs <;> exact ⟨rfl, rfl⟩
  all_goals
    simp only [getWindWarning, show getWindProfile vStreetside =
      ⟨"streetside", 0.50, 0.50, "Streetside — Moderate Exposure", none⟩ from rfl]
  all_goals
    norm_num

/-- C4: exposure resolution is first-match evaluation of the fixed
priority-ordered rule table; a venue matching both the rooftop and
beer-garden keywords resolves to `rooftop`, and a venue matching no rule
resolves to `beer_garden`. -/
theorem claim_C4 :
    (∀ v : Venue, detectWindExposure v = firstMatchAux exposureRules v) ∧
    (∀ v : Venue, matchesRooftopKw v = true → matchesBeerGardenKw v = true →
      detectWindExposure v = "rooftop") ∧
    (∀ v : Venue, (∀ r ∈ exposureRules, r.1 v = false) →
      detectWindExposure v = "beer_garden") := by
  have hmain : ∀ v : Venue, detectWindExposure v = firstMatchAux exposureRules v :=
    fun v => rfl
  refine ⟨hmain, fun v h1 _ => ?_, fun v h => ?_⟩
  · simp only [detectWindExposure, matchesRooftopKw] at h1 ⊢
    rw [h1]
    rfl
  · rw [hmain v]
    exact firstMatchAux_default _ _ h

/-- Witness for C4: a "rooftop beer garden" venue resolves to rooftop and
a keyword-free venue to beer_garden. -/
theorem claim_C4_witness :
    detectWindExposure vRooftopBeerGarden = "rooftop" ∧
    detectWindExposure vNoKeywords = "beer_garden" :=
  ⟨claim_C4.2.1 vRooftopBeerGarden (by decide) (by decide),
   claim_C4.2.2 vNoKeywords (by decide)⟩

/-- Counterexample to C5 as stated: for the `["Rooftop"]` venue and
weather 24 °C / 10 m/s / 50 %, the apparent temperature is 18.3 °C, not
approximately 24.43 °C, and its comfort tier is not `warm` — the
calculator attenuates wind by `1 − shelterFactor = 0.95`, not by the
`0.05` the scenario's arithmetic used. -/
theorem claim_C5_counterexample :
    calculateApparentTemp (some 24) (some 10) (some 50)
      (getWindProfile vRooftopTagged).shelterFactor = some 18.3 ∧
    ¬ calculateApparentTemp (some 24) (some 10) (some 50)
      (getWindProfile vRooftopTagged).shelterFactor = some 24.4 ∧
    ¬ (getComfortZone (calculateApparentTemp (some 24) (some 10) (some 50)
      (getWindProfile vRooftopTagged).shelterFactor)).level = "warm" := by
  have hsf : (getWindProfile vRooftopTagged).shelterFactor = 0.05 := rfl
  rw [hsf, calcAT_scenario]
  refine ⟨rfl, ?_, ?_⟩
  · intro hcontra
    have := Option.some.inj hcontra
    norm_num at this
  · simp only [getComfortZone]
    norm_num
    decide

/-- C5 (amended): for the `["Rooftop"]` venue (exposure 0.95, shelter
0.05) and weather 24 °C / 10 m/s / 50 %, the apparent temperature is
18.3 °C (≈ 18.26 before rounding, since the effective wind is
10·0.95 = 9.5 m/s), the comfort tier is `mild`, and the wind tier from
effective wind 9.5 m/s is windy (`orange`). -/
theorem claim_C5 :
    (getWindProfile vRooftopTagged).exposure = 0.95 ∧
    (getWindProfile vRooftopTagged).shelterFactor = 0.05 ∧
    calculateApparentTemp (some 24) (some 10) (some 50)
      (getWindProfile vRooftopTagged).shelterFactor = some 18.3 ∧
    (getComfortZone (calculateApparentTemp (some 24) (some 10) (some 50)
      (getWindProfile vRooftopTagged).shelterFactor)).level = "mild" ∧
    (getWindWarning (some 10) vRooftopTagged).level = "orange" := by
  have hsf : (getWindProfile vRooftopTagged).shelterFactor = 0.05 := rfl
  rw [hsf, calcAT_scenario]
  refine ⟨rfl, rfl, rfl, ?_, ?_⟩
  · simp only [getComfortZone]
    norm_num
  · simp only [getWindWarning, show getWindProfile vRooftopTagged =
      ⟨"rooftop", 0.95, 0.05, "Rooftop — Fully Exposed", none⟩ from rfl]
    norm_num

/-- C6: the first point of `generateHourlyForecast` reproduces the live
sample modulo rounding for every current hour in [0, 23]: its `temp` is
`round T`, its `wind` is `round (W·3.6)` km/h, `isCurrent` is true and
its label is "Now", because the generator divides by the current hour's
wind multiplier and subtracts its temperature offset before re-applying
them. -/
theorem claim_C6 (T W : ℚ) (H : Option ℚ) (v : Venue) (ch : Nat) (hch : ch < 24) :
    ∃ p, (generateHourlyForecast T W H v ch).head? = some p ∧
      p.temp = jsRoundQ T ∧ p.wind = jsRoundQ (W * 3.6) ∧
      p.isCurrent = true ∧ p.label = "Now" := by
  have hm : windMultipliers ch ≠ 0 := windMultipliers_ne_zero ch
  have hmod : (ch + 0) % 24 = ch := by omega
  refine ⟨_, rfl, ?_, ?_, rfl, rfl⟩
  · show jsRoundQ (T - tempOffsets ch + tempOffsets ((ch + 0) % 24)) = jsRoundQ T
    rw [hmod]
    ring_nf
  · show jsRoundQ (W / windMultipliers ch * windMultipliers ((ch + 0) % 24) * 3.6) =
      jsRoundQ (W * 3.6)
    rw [hmod, div_mul_cancel₀ _ hm]

/-- Witness for C6 at 20 °C, 5 m/s, 50 % humidity, hour 3. -/
theorem claim_C6_witness :
    (3 < 24) ∧ ∃ p, (generateHourlyForecast 20 5 (some 50) vNoKeywords 3).head? = some p ∧
      p.temp = jsRoundQ 20 ∧ p.wind = jsRoundQ (5 * 3.6) ∧
      p.isCurrent = true ∧ p.label = "Now" :=
  ⟨by norm_num, claim_C6 20 5 (some 50) vNoKeywords 3 (by norm_num)⟩

/-- Counterexample to C7 as stated: on the series with `windMs` values
5, 5, 5, 5, 0 the claim's formula gives `delta = 0 − 5 = −5 < −3`, hence
`calming`, but the source's `hourlyForecast[4]?.windMs || inTwoHours`
treats the `0` at index 4 as falsy and falls back to index 2, yielding
`steady`. -/
theorem claim_C7_counterexample :
    (getWindTrend (some [trendPoint 5, trendPoint 5, trendPoint 5, trendPoint 5,
      trendPoint 0])).direction = "steady" ∧
    ([trendPoint 5, trendPoint 5, trendPoint 5, trendPoint 5, trendPoint 0].map
        fun p => p.windMs).getD 4 0 -
      ([trendPoint 5, trendPoint 5, trendPoint 5, trendPoint 5, trendPoint 0].map
        fun p => p.windMs).getD 0 0 < -3 ∧
    ¬ (getWindTrend (some [trendPoint 5, trendPoint 5, trendPoint 5, trendPoint 5,
      trendPoint 0])).direction = "calming" := by
  have h1 : (getWindTrend (some [trendPoint 5, trendPoint 5, trendPoint 5, trendPoint 5,
      trendPoint 0])).direction = "steady" := by
    simp only [getWindTrend, trendPoint, steadyTrend]
    norm_num
  exact ⟨h1, by norm_num [trendPoint], by rw [h1]; decide⟩

/-- C7 (amended): `getWindTrend` compares `windMs[0]` with `windMs[4]` if
index 4 exists and its value is nonzero, else with `windMs[2]`; the ratio
`delta/windMs[0]` is used only when `windMs[0] > 0`, else `delta` alone;
thresholds ±0.3 (ratio) and ±3 (delta) give building/calming, otherwise
steady; fewer than 4 points give steady; increasing 2,3,4,5,9 builds,
decreasing 9,7,5,3,1 calms, flat 5,5,5,5,5 is steady. -/
theorem claim_C7 :
    (∀ f : List HourlyPoint,
      (getWindTrend (some f)).direction = windTrendAmendedDir (f.map fun p => p.windMs)) ∧
    (∀ f : List HourlyPoint, f.length < 4 → (getWindTrend (some f)).direction = "steady") ∧
    (getWindTrend none).direction = "steady" ∧
    (getWindTrend (some [trendPoint 2, trendPoint 3, trendPoint 4, trendPoint 5,
      trendPoint 9])).direction = "building" ∧
    (getWindTrend (some [trendPoint 9, trendPoint 7, trendPoint 5, trendPoint 3,
      trendPoint 1])).direction = "calming" ∧
    (getWindTrend (some [trendPoint 5, trendPoint 5, trendPoint 5, trendPoint 5,
      trendPoint 5])).direction = "steady" := by
  refine ⟨getWindTrend_eq_amended, fun f h => ?_, rfl, ?_, ?_, ?_⟩
  · rcases f with _ | ⟨a, _ | ⟨b, _ | ⟨c, _ | ⟨d, rest⟩⟩⟩⟩
    · rfl
    · rfl
    · rfl
    · rfl
    · simp only [List.length_cons] at h
      omega
  all_goals
    simp only [getWindTrend, trendPoint, steadyTrend]
  all_goals
    norm_num

/-- Witness for C7 on the empty series. -/
theorem claim_C7_witness :
    (([] : List HourlyPoint).length < 4) ∧
    (getWindTrend (some ([] : List HourlyPoint))).direction = "steady" :=
  ⟨by norm_num, claim_C7.2.1 [] (by norm_num)⟩

/-- C8: on a series of at least 3 points, hours are scored exactly as the
claim states, and the optimiser returns the window built from the three
points at the scan's selected start, whose 3-hour score sum is maximal
over all in-range starts and strictly beats every earlier start (first
window wins ties). -/
theorem claim_C8 (f : List HourlyPoint) (h3 : 3 ≤ f.length) :
    (∀ p, hourScore p = claimHourScore p) ∧
    ∃ p0 p1 p2, f.get? (bestStartOf f) = some p0 ∧ f.get? (bestStartOf f + 1) = some p1 ∧
      f.get? (bestStartOf f + 2) = some p2 ∧
      getOptimalBookingTime (some f) = some (some (buildWindow p0 p1 p2)) ∧
      bestStartOf f + 2 < f.length ∧
      (∀ i, i + 2 < f.length →
        windowSum (f.map hourScore) i ≤ windowSum (f.map hourScore) (bestStartOf f)) ∧
      (∀ j < bestStartOf f,
        windowSum (f.map hourScore) j < windowSum (f.map hourScore) (bestStartOf f)) := by
  have hlen : (f.map hourScore).length = f.length := List.length_map f hourScore
  obtain ⟨hb1, hb2, hb3⟩ := bestScan_spec (f.map hourScore) (by rw [hlen]; exact h3)
  obtain ⟨p0, p1, p2, h0, h1, h2, heq⟩ := getOptimal_of_three_le f h3
  refine ⟨fun p => rfl, p0, p1, p2, h0, h1, h2, heq, by rw [← hlen]; exact hb1,
    fun i hi => hb2 i (by omega), hb3⟩

/-- Witness for C8 on a concrete three-point series. -/
theorem claim_C8_witness :
    (3 ≤ ([trendPoint 1, trendPoint 2, trendPoint 3] : List HourlyPoint).length) ∧
    ((∀ p, hourScore p = claimHourScore p) ∧
    ∃ p0 p1 p2,
      ([trendPoint 1, trendPoint 2, trendPoint 3] : List HourlyPoint).get?
        (bestStartOf [trendPoint 1, trendPoint 2, trendPoint 3]) = some p0 ∧
      ([trendPoint 1, trendPoint 2, trendPoint 3] : List HourlyPoint).get?
        (bestStartOf [trendPoint 1, trendPoint 2, trendPoint 3] + 1) = some p1 ∧
      ([trendPoint 1, trendPoint 2, trendPoint 3] : List HourlyPoint).get?
        (bestStartOf [trendPoint 1, trendPoint 2, trendPoint 3] + 2) = some p2 ∧
      getOptimalBookingTime (some [trendPoint 1, trendPoint 2, trendPoint 3]) =
        some (some (buildWindow p0 p1 p2)) ∧
      bestStartOf [trendPoint 1, trendPoint 2, trendPoint 3] + 2 <
        ([trendPoint 1, trendPoint 2, trendPoint 3] : List HourlyPoint).length ∧
      (∀ i, i + 2 < ([trendPoint 1, trendPoint 2, trendPoint 3] : List HourlyPoint).length →
        windowSum (([trendPoint 1, trendPoint 2, trendPoint 3] : List HourlyPoint).map hourScore) i ≤
        windowSum (([trendPoint 1, trendPoint 2, trendPoint 3] : List HourlyPoint).map hourScore)
          (bestStartOf [trendPoint 1, trendPoint 2, trendPoint 3])) ∧
      (∀ j < bestStartOf [trendPoint 1, trendPoint 2, trendPoint 3],
        windowSum (([trendPoint 1, trendPoint 2, trendPoint 3] : List HourlyPoint).map hourScore) j <
        windowSum (([trendPoint 1, trendPoint 2, trendPoint 3] : List HourlyPoint).map hourScore)
          (bestStartOf [trendPoint 1, trendPoint 2, trendPoint 3]))) :=
  ⟨by norm_num, claim_C8 [trendPoint 1, trendPoint 2, trendPoint 3] (by norm_num)⟩

/-- C9: every row of the ten-entry exposure table satisfies
`exposure + shelterFactor = 1`, and consequently the effective wind used
by the apparent-temperature calculator, `W·(1−shelterFactor)`, equals the
effective wind used by the wind classifier, `W·exposure`, for every wind
speed and venue. -/
theorem claim_C9 :
    (∀ p ∈ WIND_EXPOSURE_PROFILES, p.2.exposure + p.2.shelterFactor = 1) ∧
    WIND_EXPOSURE_PROFILES.length = 10 ∧
    ∀ (W : ℚ) (v : Venue),
      W * (1 - (getWindProfile v).shelterFactor) = W * (getWindProfile v).exposure := by
  refine ⟨profiles_sum_one, rfl, fun W v => ?_⟩
  have h := getWindProfile_sum_one v
  rw [show (getWindProfile v).exposure = 1 - (getWindProfile v).shelterFactor from by linarith]

/-- Witness for C9 at the rooftop row and the streetside venue. -/
theorem claim_C9_witness :
    ("rooftop", (⟨0.95, 0.05, "Rooftop — Fully Exposed"⟩ : WindProfile)).2.exposure +
      ("rooftop", (⟨0.95, 0.05, "Rooftop — Fully Exposed"⟩ : WindProfile)).2.shelterFactor = 1 ∧
    (2 : ℚ) * (1 - (getWindProfile vStreetside).shelterFactor) =
      2 * (getWindProfile vStreetside).exposure :=
  ⟨claim_C9.1 _ (by simp [WIND_EXPOSURE_PROFILES]), claim_C9.2.2 2 vStreetside⟩

/-- C10: `getOptimalBookingTime` returns `null` exactly for a missing or
empty series; for a series of exactly 1 or 2 points the window scan never
runs, `bestStart` stays 0, and the accesses `scored[bestStart+1]` /
`scored[bestStart+2]` fall past the end of the series (a TypeError,
modelled as the outer `none`) instead of returning `null`. -/
theorem claim_C10 :
    getOptimalBookingTime none = some none ∧
    (∀ f : List HourlyPoint, getOptimalBookingTime (some f) = some none ↔ f = []) ∧
    (∀ f : List HourlyPoint, f.length = 1 ∨ f.length = 2 →
      bestStartOf f = 0 ∧ getOptimalBookingTime (some f) = none) := by
  refine ⟨rfl, fun f => ⟨?_, ?_⟩, fun f hf => ?_⟩
  · intro hf
    rcases f with _ | ⟨a, _ | ⟨b, _ | ⟨c, rest⟩⟩⟩
    · rfl
    · exact Option.noConfusion hf
    · exact Option.noConfusion hf
    · obtain ⟨p0, p1, p2, _, _, _, heq⟩ :=
        getOptimal_of_three_le (a :: b :: c :: rest) (by simp only [List.length_cons]; omega)
      rw [heq] at hf
      exact absurd (Option.some.inj hf) (by simp)
  · rintro rfl
    rfl
  · rcases f with _ | ⟨a, _ | ⟨b, _ | ⟨c, rest⟩⟩⟩
    · simp at hf
    · exact ⟨rfl, rfl⟩
    · exact ⟨rfl, rfl⟩
    · simp only [List.length_cons] at hf
      omega

/-- Witness for C10 on a one-point series. -/
theorem claim_C10_witness :
    (([trendPoint 1] : List HourlyPoint).length = 1 ∨
      ([trendPoint 1] : List HourlyPoint).length = 2) ∧
    (bestStartOf [trendPoint 1] = 0 ∧
      getOptimalBookingTime (some [trendPoint 1]) = none) :=
  ⟨Or.inl rfl, claim_C10.2.2 [trendPoint 1] (Or.inl rfl)⟩

end Sunstay
